import Mathlib

/-!
Verification of the MEDTRACKING authentication core against its
natural-language specification.

The TypeScript sources are embedded shallowly:
  - `bcrypt.service.ts`   -> password strength validation (`validatePassword`)
  - `jwt.service.ts`      -> token issue/verify (`generateAccessToken`,
    `generateRefreshToken`, `verifyAccessToken`, `verifyRefreshToken`,
    `getExpirySeconds`)
  - `auth.middleware.ts`  -> `authMiddleware`, `accessLevelMiddleware`,
    `RateLimiter` (`isLocked`, `recordAttempt`, `resetAttempts`)
  - `auth.service.ts`     -> `register`, `login`, `refreshAccessToken`,
    `getUserById`, `updateUserAccessLevel`, `updateUserRole`

Conventions of the embedding:
  - JavaScript strings are Lean `String`s / `List Char` (the inputs in scope
    are ASCII, where UTF-16 length and code-point length agree).
  - A JS property that may be absent (`undefined`) is an `Option` field;
    reading an absent property yields `none`.
  - Machine time is a `Nat` (milliseconds for `Date.now()`, seconds for the
    JWT clock, which the source derives as `Math.floor(Date.now() / 1000)`).
  - `jsonwebtoken` signing is modelled symbolically: a signed token is its
    payload paired with the secret that signed it, and verification succeeds
    exactly when the expected secret matches and the token is unexpired
    (`now < exp`), mirroring the library checking the `exp` claim.
  - bcrypt hashing and comparison are CPU-bound external primitives; they
    enter the model as oracle parameters (`hashFn`, `cmp`).
  - Thrown `Error(msg)` values are `Except.error msg`.
-/

namespace MedTracking

/-! ## Data model (`types/auth.ts`) -/

/-- The `UserRole` string enum from `types/auth.ts` (accented member names
are spelled in ASCII; the runtime values are the ASCII strings shown by
`UserRole.str`). -/
inductive UserRole where
  | ADMIN
  | FARMACEUTICO
  | OPERADOR
  | VISUALIZADOR
  | Usuario
deriving DecidableEq, Repr

/-- Runtime string value of a `UserRole` member. -/
def UserRole.str : UserRole → String
  | .ADMIN => "ADMIN"
  | .FARMACEUTICO => "FARMACEUTICO"
  | .OPERADOR => "OPERADOR"
  | .VISUALIZADOR => "VISUALIZADOR"
  | .Usuario => "USUARIO"

/-- The numeric `AccessLevel` enum: NONE=0, READ=1, WRITE=2, DELETE=3,
ADMIN=4. Modelled as the underlying number. -/
abbrev AccessLevel := Nat

def AccessLevel.READ : AccessLevel := 1

/-! ## Credential hasher (`bcrypt.service.ts`) -/

/-- The fixed special-character set `@$!%*?&` of `BcryptService`. -/
def specialChars : List Char := ['@', '$', '!', '%', '*', '?', '&']

def minPasswordLength : Nat := 12

def hasLower (p : List Char) : Bool := p.any Char.isLower

def hasUpper (p : List Char) : Bool := p.any Char.isUpper

def hasDigit (p : List Char) : Bool := p.any Char.isDigit

def hasSpecial (p : List Char) : Bool := p.any (fun c => specialChars.contains c)

/-- Characters admitted by the body class `[A-Za-z\d@$!%*?&]` of
`passwordRegex`. -/
def isAllowedChar (c : Char) : Bool :=
  c.isLower || c.isUpper || c.isDigit || specialChars.contains c

/-- Test of `passwordRegex` from `bcrypt.service.ts`:
`(?=.*[a-z])(?=.*[A-Z])(?=.*\d)(?=.*[@$!%*?&])[A-Za-z\d@$!%*?&]+` anchored at
both ends. The model requires every character class to occur, a nonempty
body, and every character drawn from the allowed alphabet. (JS `$` can also
match just before one trailing newline; a newline is not an allowed body
character, and since the test can only return `true` when all four classes
occur, that corner cannot change the output of `validatePassword`, whose
class errors are re-checked individually.) -/
def passwordRegexTest (p : List Char) : Bool :=
  hasLower p && hasUpper p && hasDigit p && hasSpecial p &&
    p.all isAllowedChar && !p.isEmpty

def errLen : String := "Password must be at least 12 characters long"

def errLower : String := "Password must contain at least one lowercase letter"

def errUpper : String := "Password must contain at least one uppercase letter"

def errDigit : String := "Password must contain at least one number"

def errSpecial : String := "Password must contain at least one special character (@$!%*?&)"

structure PwdValidation where
  valid : Bool
  errors : List String
deriving DecidableEq, Repr

/-- `BcryptService.validatePassword`: pushes the length error, then — only
when the full regex fails — re-tests each character class individually and
pushes the corresponding errors in source order. -/
def validatePassword (p : List Char) : PwdValidation :=
  let lenErrs := if p.length < minPasswordLength then [errLen] else []
  let classErrs :=
    if passwordRegexTest p then []
    else
      (if hasLower p then [] else [errLower]) ++
      (if hasUpper p then [] else [errUpper]) ++
      (if hasDigit p then [] else [errDigit]) ++
      (if hasSpecial p then [] else [errSpecial])
  let errs := lenErrs ++ classErrs
  { valid := errs.isEmpty, errors := errs }

/-! ## Duration parsing (`JWTService.getExpirySeconds`) -/

/-- Unit letters of the duration regex character class `[dhms]`. -/
def unitChars : List Char := ['d', 'h', 'm', 's']

/-- Maximal digit prefix of a character list (the greedy `\d+`). -/
def leadingDigits : List Char → List Char
  | [] => []
  | c :: cs => if c.isDigit then c :: leadingDigits cs else []

/-- Numeric value of a digit string, as `parseInt(value, 10)` computes it on
an all-digit input. -/
def digitsToNat (ds : List Char) : Nat :=
  ds.foldl (fun acc c => acc * 10 + (c.toNat - '0'.toNat)) 0

/-- Leftmost match of the unanchored regex `(\d+)([dhms])`: scan positions
left to right; at a digit, the greedy digit run must be followed immediately
by a unit letter (backtracking inside the run cannot succeed because a digit
is never a unit letter), else matching resumes at the next position. -/
def findDurMatch : List Char → Option (Nat × Char)
  | [] => none
  | c :: cs =>
    if c.isDigit then
      match (c :: cs).drop (leadingDigits (c :: cs)).length with
      | u :: _ =>
        if unitChars.contains u then some (digitsToNat (leadingDigits (c :: cs)), u)
        else findDurMatch cs
      | [] => findDurMatch cs
    else findDurMatch cs

/-- Seconds-per-unit table; the source falls back to `86400` via
`multipliers[unit] || 86400` (unreachable for a matched unit letter). -/
def unitMultiplier : Char → Nat
  | 's' => 1
  | 'm' => 60
  | 'h' => 3600
  | 'd' => 86400
  | _ => 86400

/-- `JWTService.getExpirySeconds`: convert a compact duration string to
seconds, defaulting to 86400 (24h) when the regex does not match. -/
def getExpirySeconds (timeStr : String) : Nat :=
  match findDurMatch timeStr.toList with
  | none => 86400
  | some (n, u) => n * unitMultiplier u

/-- Spec-side characterisation used for claim C10: a numeric magnitude with
a single unit letter can be extracted exactly when some digit is immediately
followed by a unit letter. -/
def hasDigitUnitPair : List Char → Bool
  | [] => false
  | [_] => false
  | a :: b :: rest => (a.isDigit && unitChars.contains b) || hasDigitUnitPair (b :: rest)

/-! ## Token service (`jwt.service.ts`) -/

/-- A JavaScript value that can occupy the `userId` claim. The source
declares it a string, but the `login` call site passes the object literal
`\x7b id, email \x7d` to `generateRefreshToken`, so both shapes occur. -/
inductive JsVal where
  | str : String → JsVal
  | objIdEmail : String → String → JsVal
deriving DecidableEq, Repr

/-- A decoded JWT payload. Fields that no signer in this codebase sets
(`id`, `accessLevel`, and `tokenType` for access tokens) are `Option`s
defaulting to `none`: reading them on a payload that lacks them yields
`undefined`, i.e. `none`. `tokenType` stands for the JSON property named
`type`. -/
structure TokenPayload where
  userId : Option JsVal := none
  email : Option String := none
  role : Option UserRole := none
  tokenType : Option String := none
  id : Option String := none
  accessLevel : Option Nat := none
  iat : Nat := 0
  exp : Nat := 0
deriving DecidableEq, Repr

/-- Symbolic model of `jwt.sign(payload, secret, HS256)`: the token is the
payload together with the secret that signed it. -/
structure SignedToken where
  payload : TokenPayload
  secret : String
deriving DecidableEq, Repr

/-- Symbolic `jwt.verify(token, secret, HS256)` at clock `now` (seconds):
the signature checks out exactly when the secrets coincide, and the library
rejects an expired token (`now >= exp` fails), so success requires
`now < exp`. On any failure the callers catch and return `none`. -/
def jwtVerify (tok : SignedToken) (secret : String) (now : Nat) : Option TokenPayload :=
  if tok.secret = secret ∧ now < tok.payload.exp then some tok.payload else none

/-- Environment-sourced configuration of `JWTService`, with the source
defaults. -/
structure JWTConfig where
  jwtSecret : String := "secret-key-change-me"
  refreshSecret : String := "refresh-key-change-me"
  jwtExpire : String := "24h"
  refreshExpire : String := "7d"
deriving DecidableEq, Repr

def defaultConfig : JWTConfig := {}

/-- The argument shape both `generateAccessToken` call sites pass:
`\x7b id, email, role, accessLevel \x7d`. -/
structure UserView where
  id : String
  email : String
  role : UserRole
  accessLevel : AccessLevel
deriving DecidableEq, Repr

/-- `JWTService.generateAccessToken` at clock `now` (seconds): payload
carries userId/email/role/iat/exp — no `accessLevel`, no `type` — signed
with the access secret. (The two `Date.now()` reads for `iat` and `exp` are
modelled as one instant.) -/
def generateAccessToken (cfg : JWTConfig) (now : Nat) (user : UserView) : SignedToken :=
  { payload :=
      { userId := some (JsVal.str user.id)
        email := some user.email
        role := some user.role
        iat := now
        exp := now + getExpirySeconds cfg.jwtExpire }
    secret := cfg.jwtSecret }

/-- `JWTService.generateRefreshToken`: payload carries the passed `userId`
value, `type = "refresh"`, iat/exp, signed with the refresh secret. -/
def generateRefreshToken (cfg : JWTConfig) (now : Nat) (userId : JsVal) : SignedToken :=
  { payload :=
      { userId := some userId
        tokenType := some "refresh"
        iat := now
        exp := now + getExpirySeconds cfg.refreshExpire }
    secret := cfg.refreshSecret }

/-- `JWTService.verifyAccessToken`: verify against the access secret; the
`as TokenPayload` cast is a no-op at runtime; any exception becomes `none`. -/
def verifyAccessToken (cfg : JWTConfig) (now : Nat) (tok : SignedToken) : Option TokenPayload :=
  jwtVerify tok cfg.jwtSecret now

/-- The object literal `\x7b userId: payload.userId \x7d` that
`verifyRefreshToken` returns: it has a `userId` property only; `email` is
carried as an always-`none` field so that the later property access
`decoded.email` in `refreshAccessToken` denotes `undefined`. -/
structure RefreshDecoded where
  userId : Option JsVal
  email : Option String
deriving DecidableEq, Repr

/-- `JWTService.verifyRefreshToken`: verify against the refresh secret and
repackage only the `userId` claim. Note the source never inspects the
`type` discriminator. -/
def verifyRefreshToken (cfg : JWTConfig) (now : Nat) (tok : SignedToken) : Option RefreshDecoded :=
  (jwtVerify tok cfg.refreshSecret now).map fun p => { userId := p.userId, email := none }

/-! ## Middleware and rate limiter (`auth.middleware.ts`) -/

/-- Outcome of an Express middleware: either a terminal
`res.status(code).json(\x7b error \x7d)` or `next()` with the request
context it attached. -/
inductive MwOutcome (α : Type) where
  | status : Nat → String → MwOutcome α
  | next : α → MwOutcome α
deriving DecidableEq, Repr

/-- The `req.user` context `authMiddleware` attaches. -/
structure RequestUser where
  id : Option String
  email : Option String
  role : Option UserRole
  accessLevel : Option Nat
deriving DecidableEq, Repr

/-- `authMiddleware`, after bearer extraction (`tok? = none` models a
missing/malformed Authorization header): verify the access token and attach
`\x7b id: decoded.id, email, role, accessLevel: decoded.accessLevel \x7d`.
The payload fields `id` and `accessLevel` are read as-is (they are absent
on every token this codebase issues). -/
def authMiddleware (cfg : JWTConfig) (now : Nat) (tok? : Option SignedToken) :
    MwOutcome RequestUser :=
  match tok? with
  | none => .status 401 "No token provided"
  | some tok =>
    match verifyAccessToken cfg now tok with
    | none => .status 401 "Invalid token"
    | some p =>
      .next { id := p.id, email := p.email, role := p.role, accessLevel := p.accessLevel }

/-- JS `a < b` when `a` may be `undefined`: `undefined < b` is `false`
(the comparison goes through `NaN`). -/
def jsLtOptNat : Option Nat → Nat → Bool
  | none, _ => false
  | some a, b => decide (a < b)

/-- `accessLevelMiddleware(requiredLevel)` applied to a request whose
`user` context is `user?`. -/
def accessLevelMiddleware (requiredLevel : AccessLevel) (user? : Option RequestUser) :
    MwOutcome RequestUser :=
  match user? with
  | none => .status 401 "User not authenticated"
  | some u =>
    if jsLtOptNat u.accessLevel requiredLevel then .status 403 "Insufficient access level"
    else .next u

/-- One entry of the `loginAttempts` map. -/
structure RLRecord where
  count : Nat
  timestamp : Nat
deriving DecidableEq, Repr

/-- The `loginAttempts` map of `RateLimiter`, as a keyed partial map. -/
def RLState := String → Option RLRecord

def rlEmpty : RLState := fun _ => none

def rlSet (id : String) (r : RLRecord) (s : RLState) : RLState :=
  fun k => if k = id then some r else s k

def rlDelete (id : String) (s : RLState) : RLState :=
  fun k => if k = id then none else s k

def maxAttempts : Nat := 5

/-- Fifteen minutes in milliseconds. -/
def lockoutDuration : Nat := 15 * 60 * 1000

/-- `RateLimiter.isLocked` at clock `now` (ms): no record is open; an
expired record is deleted and open; otherwise locked iff the count reached
`maxAttempts`. Returns the possibly-updated map alongside the answer.
(JS `now - timestamp > duration` on a clock that ran backwards is a
negative-number comparison and false; truncated `Nat` subtraction gives the
same verdict.) -/
def isLocked (now : Nat) (id : String) (s : RLState) : Bool × RLState :=
  match s id with
  | none => (false, s)
  | some r =>
    if now - r.timestamp > lockoutDuration then (false, rlDelete id s)
    else (decide (maxAttempts ≤ r.count), s)

/-- `RateLimiter.recordAttempt` at clock `now` (ms). -/
def recordAttempt (now : Nat) (id : String) (s : RLState) : RLState :=
  match s id with
  | none => rlSet id { count := 1, timestamp := now } s
  | some r =>
    if now - r.timestamp > lockoutDuration then rlSet id { count := 1, timestamp := now } s
    else rlSet id { count := r.count + 1, timestamp := now } s

/-- `RateLimiter.resetAttempts`. -/
def resetAttempts (id : String) (s : RLState) : RLState := rlDelete id s

/-! ## Authentication orchestrator (`auth.service.ts`) -/

/-- The stored record shape `User & \x7b password: string \x7d` as
`register` actually constructs it (`createdAt` as a timestamp). -/
structure StoredUser where
  id : String
  email : String
  name : String
  role : UserRole
  accessLevel : AccessLevel
  createdAt : Nat
  password : String
deriving DecidableEq, Repr

/-- The password-free projection produced by the destructuring
`const \x7b password: _, ...userWithoutPassword \x7d = user`. -/
structure PublicUser where
  id : String
  email : String
  name : String
  role : UserRole
  accessLevel : AccessLevel
  createdAt : Nat
deriving DecidableEq, Repr

def stripPassword (u : StoredUser) : PublicUser :=
  { id := u.id, email := u.email, name := u.name, role := u.role
    accessLevel := u.accessLevel, createdAt := u.createdAt }

/-- The module-level `users: Map<string, User & \x7bpassword\x7d>` keyed by
email, in insertion order. -/
abbrev UserStore := List (String × StoredUser)

/-- `users.get(key)` for a definite string key. -/
def storeFind : UserStore → String → Option StoredUser
  | [], _ => none
  | (k, u) :: rest, key => if k = key then some u else storeFind rest key

/-- `users.get(key)` where the key expression may be `undefined`; a string
keyed `Map` holds no entry under `undefined`, so the lookup misses. -/
def storeGet (s : UserStore) : Option String → Option StoredUser
  | none => none
  | some key => storeFind s key

/-- `users.set(key, u)`: replace in place, or append a new key. -/
def storeSet : UserStore → String → StoredUser → UserStore
  | [], k, u => [(k, u)]
  | (k0, u0) :: rest, k, u =>
    if k0 = k then (k, u) :: rest else (k0, u0) :: storeSet rest k u

/-- First user, in insertion order, whose `id` matches —
the `for (const user of users.values())` loop of `getUserById`. -/
def findById : UserStore → String → Option StoredUser
  | [], _ => none
  | (_, u) :: rest, uid => if u.id = uid then some u else findById rest uid

structure RegisterRequest where
  email : String
  password : String
  name : String
  role : Option UserRole := none
deriving DecidableEq, Repr

structure LoginRequest where
  email : String
  password : String
deriving DecidableEq, Repr

/-- The `user` summary embedded in a `LoginResponse`. -/
structure LoginUserView where
  id : String
  email : String
  role : UserRole
  accessLevel : AccessLevel
deriving DecidableEq, Repr

structure LoginResponse where
  accessToken : SignedToken
  refreshToken : SignedToken
  user : LoginUserView
deriving DecidableEq, Repr

/-- `AuthService.register`. External effects are parameters: `hashFn` is
`bcrypt.hash` at the fixed cost factor (assumed not to fail), `freshId` the
random id `Math.random().toString(36).substr(2, 9)`, `now` the clock for
`createdAt`. `bcryptService.hashPassword` first runs `validatePassword`
and throws on a weak password. Returns the result together with the updated
store. -/
def register (hashFn : String → String) (freshId : String) (now : Nat)
    (store : UserStore) (req : RegisterRequest) :
    Except String PublicUser × UserStore :=
  if req.email = "" ∨ req.password = "" ∨ req.name = "" then
    (.error "Email, password, and name are required", store)
  else if (storeFind store req.email).isSome then
    (.error "User already exists", store)
  else
    let v := validatePassword req.password.toList
    if v.valid then
      let user : StoredUser :=
        { id := freshId, email := req.email, name := req.name
          role := req.role.getD UserRole.Usuario
          accessLevel := AccessLevel.READ, createdAt := now
          password := hashFn req.password }
      (.ok (stripPassword user), storeSet store req.email user)
    else
      (.error ("Invalid password: " ++ String.intercalate ", " v.errors), store)

def lockedMsg : String :=
  "Account locked due to too many failed login attempts. Try again in 15 minutes."

def invalidCredsMsg : String := "Invalid email or password"

/-- `AuthService.login` at clock `nowMs` (`Date.now()`); the token clock is
`nowMs / 1000`. `cmp` is the `bcrypt.compare` oracle (assumed not to
throw). Returns the result together with the updated rate-limiter map. -/
def login (cfg : JWTConfig) (nowMs : Nat) (cmp : String → String → Bool)
    (store : UserStore) (rl : RLState) (req : LoginRequest) :
    Except String LoginResponse × RLState :=
  if req.email = "" ∨ req.password = "" then
    (.error "Email and password are required", rl)
  else
    let lk := isLocked nowMs req.email rl
    if lk.fst then (.error lockedMsg, lk.snd)
    else
      match storeFind store req.email with
      | none => (.error invalidCredsMsg, recordAttempt nowMs req.email lk.snd)
      | some user =>
        if cmp req.password user.password then
          let rl2 := resetAttempts req.email lk.snd
          let accessToken := generateAccessToken cfg (nowMs / 1000)
            { id := user.id, email := user.email, role := user.role
              accessLevel := user.accessLevel }
          let refreshToken := generateRefreshToken cfg (nowMs / 1000)
            (JsVal.objIdEmail user.id user.email)
          (.ok { accessToken := accessToken, refreshToken := refreshToken
                 user := { id := user.id, email := user.email, role := user.role
                           accessLevel := user.accessLevel } }, rl2)
        else
          (.error invalidCredsMsg, recordAttempt nowMs req.email lk.snd)

/-- `AuthService.refreshAccessToken` at token clock `now` (seconds): verify
the refresh token, look the user up under `decoded.email` — a property the
decoded object does not have — and issue a fresh access token. -/
def refreshAccessToken (cfg : JWTConfig) (now : Nat) (store : UserStore)
    (tok : SignedToken) : Except String SignedToken :=
  match verifyRefreshToken cfg now tok with
  | none => .error "Invalid refresh token"
  | some decoded =>
    match storeGet store decoded.email with
    | none => .error "User not found"
    | some user =>
      .ok (generateAccessToken cfg now
        { id := user.id, email := user.email, role := user.role
          accessLevel := user.accessLevel })

/-- `AuthService.getUserById`: scan by id, strip the password. -/
def getUserById (store : UserStore) (userId : String) : Option PublicUser :=
  (findById store userId).map stripPassword

/-- `AuthService.updateUserAccessLevel`: mutate the first record with a
matching id in place and return its stripped projection; otherwise throw. -/
def updateUserAccessLevel (userId : String) (lvl : AccessLevel) :
    UserStore → Except String PublicUser × UserStore
  | [] => (.error "User not found", [])
  | (k, u) :: rest =>
    if u.id = userId then
      let u2 := { u with accessLevel := lvl }
      (.ok (stripPassword u2), (k, u2) :: rest)
    else
      let r := updateUserAccessLevel userId lvl rest
      (r.fst, (k, u) :: r.snd)

/-- `AuthService.updateUserRole`: same shape as `updateUserAccessLevel`. -/
def updateUserRole (userId : String) (role : UserRole) :
    UserStore → Except String PublicUser × UserStore
  | [] => (.error "User not found", [])
  | (k, u) :: rest =>
    if u.id = userId then
      let u2 := { u with role := role }
      (.ok (stripPassword u2), (k, u2) :: rest)
    else
      let r := updateUserRole userId role rest
      (r.fst, (k, u) :: r.snd)

/-! ## Auxiliary notions used by the claims -/

/-- Fold `recordAttempt` over a list of failure times (oldest first). -/
def recordMany (id : String) (ts : List Nat) (s : RLState) : RLState :=
  ts.foldl (fun st t => recordAttempt t id st) s

/-- Every listed time lies within the lockout window of the time before it
(the windows are sliding, anchored at the most recent failure). -/
def chainedFromB : Nat → List Nat → Bool
  | _, [] => true
  | prev, t :: rest => decide (t - prev ≤ lockoutDuration) && chainedFromB t rest

/-- Last element of a time list, with an explicit head. -/
def lastTime (t : Nat) : List Nat → Nat
  | [] => t
  | x :: xs => lastTime x xs

/-- String content of a `JsVal`. -/
def JsVal.strings : JsVal → List String
  | .str s => [s]
  | .objIdEmail i e => [i, e]

/-- Every string contained anywhere in a token payload. -/
def payloadStrings (p : TokenPayload) : List String :=
  (match p.userId with | none => [] | some v => v.strings) ++
  p.email.toList ++
  (match p.role with | none => [] | some r => [r.str]) ++
  p.tokenType.toList ++ p.id.toList

/-- Every string contained anywhere in a signed token apart from the shared
signing secret (which is configuration, not user data). -/
def tokenStrings (t : SignedToken) : List String := payloadStrings t.payload

/-- Every string contained anywhere in a password-free user projection. -/
def publicUserStrings (u : PublicUser) : List String :=
  [u.id, u.email, u.name, u.role.str]

/-- Every string contained anywhere in a login response. -/
def loginRespStrings (r : LoginResponse) : List String :=
  tokenStrings r.accessToken ++ tokenStrings r.refreshToken ++
  [r.user.id, r.user.email, r.user.role.str]

/-- The five runtime role strings. -/
def roleNames : List String :=
  ["ADMIN", "FARMACEUTICO", "OPERADOR", "VISUALIZADOR", "USUARIO"]

/-! ## General lemmas -/

theorem validatePassword_errors_eq (p : List Char) :
    (validatePassword p).errors =
      (if p.length < minPasswordLength then [errLen] else []) ++
      ((if hasLower p then [] else [errLower]) ++
       (if hasUpper p then [] else [errUpper]) ++
       (if hasDigit p then [] else [errDigit]) ++
       (if hasSpecial p then [] else [errSpecial])) := by
  unfold validatePassword
  cases hr : passwordRegexTest p with
  | true =>
    have h := hr
    simp only [passwordRegexTest, Bool.and_eq_true] at h
    obtain ⟨⟨⟨⟨⟨h1, h2⟩, h3⟩, h4⟩, h5⟩, h6⟩ := h
    simp [h1, h2, h3, h4]
  | false => simp

theorem validatePassword_valid_eq (p : List Char) :
    (validatePassword p).valid = (validatePassword p).errors.isEmpty := rfl

theorem hasDigitUnitPair_tail {c : Char} {cs : List Char}
    (h : hasDigitUnitPair (c :: cs) = false) : hasDigitUnitPair cs = false := by
  cases cs with
  | nil => rfl
  | cons b bs =>
    simp only [hasDigitUnitPair, Bool.or_eq_false_iff] at h
    exact h.2

theorem afterRun_not_unit {cs : List Char} {c : Char} (hc : c.isDigit = true)
    (h : hasDigitUnitPair (c :: cs) = false) :
    ∀ u rest, cs.drop (leadingDigits cs).length = u :: rest →
      unitChars.contains u = false := by
  induction cs generalizing c with
  | nil => intro u rest h0; simp at h0
  | cons b bs ih =>
    intro u rest h0
    by_cases hb : b.isDigit
    · have h1 : hasDigitUnitPair (b :: bs) = false := hasDigitUnitPair_tail h
      simp only [leadingDigits, hb, if_true, List.length_cons, List.drop_succ_cons] at h0
      exact ih hb h1 u rest h0
    · simp only [leadingDigits, hb, if_false, List.length_nil, List.drop_zero] at h0
      cases h0
      simp only [hasDigitUnitPair, Bool.or_eq_false_iff, Bool.and_eq_false_iff] at h
      rcases h.1 with h2 | h2
      · exact absurd hc (by simp [h2])
      · exact h2

theorem findDurMatch_eq_none {s : List Char} (h : hasDigitUnitPair s = false) :
    findDurMatch s = none := by
  induction s with
  | nil => rfl
  | cons c cs ih =>
    have htail : hasDigitUnitPair cs = false := hasDigitUnitPair_tail h
    by_cases hc : c.isDigit
    · simp only [findDurMatch, hc, if_true]
      simp only [leadingDigits, hc, if_true, List.length_cons, List.drop_succ_cons]
      cases h0 : cs.drop (leadingDigits cs).length with
      | nil => exact ih htail
      | cons u rest =>
        have hnu := afterRun_not_unit hc h u rest h0
        simp only [hnu, if_false, Bool.false_eq_true]
        exact ih htail
    · simp only [findDurMatch, hc, if_false]
      exact ih htail

theorem verifyRefreshToken_email_none {cfg : JWTConfig} {now : Nat}
    {tok : SignedToken} {d : RefreshDecoded}
    (h : verifyRefreshToken cfg now tok = some d) : d.email = none := by
  unfold verifyRefreshToken at h
  cases hv : jwtVerify tok cfg.refreshSecret now with
  | none => rw [hv] at h; simp at h
  | some p => rw [hv] at h; simp at h; rw [← h]

theorem refreshAccessToken_never_ok (cfg : JWTConfig) (now : Nat)
    (store : UserStore) (tok : SignedToken) (res : SignedToken) :
    refreshAccessToken cfg now store tok ≠ .ok res := by
  unfold refreshAccessToken
  cases hv : verifyRefreshToken cfg now tok with
  | none => simp
  | some d =>
    have he : d.email = none := verifyRefreshToken_email_none hv
    simp [he, storeGet]

/-! ## Claim C1 -/

/-- Claim C1 (refuted; the code is the slip): for every refresh token that
verifies successfully, and regardless of the user store — in particular when
the subject is present — `refreshAccessToken` throws "User not found"
instead of issuing an access token, because it reads `decoded.email` while
`verifyRefreshToken` only ever returns a `userId` property, so the map
lookup runs on `undefined`. -/
theorem refreshAccessToken_user_not_found_bug (cfg : JWTConfig) (now : Nat)
    (store : UserStore) (tok : SignedToken)
    (h : (verifyRefreshToken cfg now tok).isSome = true) :
    refreshAccessToken cfg now store tok = .error "User not found" := by
  unfold refreshAccessToken
  cases hv : verifyRefreshToken cfg now tok with
  | none => rw [hv] at h; simp at h
  | some d =>
    have he : d.email = none := verifyRefreshToken_email_none hv
    simp [he, storeGet]

/-- Concrete instance of claim C1: a freshly issued refresh token for user
u1, whose record is in the store, still yields "User not found". -/
theorem refreshAccessToken_user_not_found_bug_witness :
    (verifyRefreshToken defaultConfig 0
        (generateRefreshToken defaultConfig 0 (JsVal.str "u1"))).isSome = true ∧
    storeFind [("a@x.com",
        { id := "u1", email := "a@x.com", name := "Ana", role := UserRole.Usuario,
          accessLevel := 1, createdAt := 0, password := "h" })] "a@x.com" ≠ none ∧
    refreshAccessToken defaultConfig 0
      [("a@x.com",
        { id := "u1", email := "a@x.com", name := "Ana", role := UserRole.Usuario,
          accessLevel := 1, createdAt := 0, password := "h" })]
      (generateRefreshToken defaultConfig 0 (JsVal.str "u1")) =
      .error "User not found" :=
  ⟨by decide, by decide,
   refreshAccessToken_user_not_found_bug defaultConfig 0 _ _ (by decide)⟩

/-! ## Claim C2 -/

/-- Claim C2 counterexample: a token lacking the refresh type discriminator
but signed with the refresh secret IS accepted by `verifyRefreshToken`
(the source never inspects the `type` claim), and with equal secrets
`verifyAccessToken` DOES accept a refresh token, refuting both halves of
the claim at concrete inputs. -/
theorem verifyRefreshToken_accepts_untyped_token_cex :
    ¬ (verifyRefreshToken defaultConfig 0
        { payload := { userId := some (JsVal.str "u1"), email := some "a@x.com",
                       role := some UserRole.ADMIN, iat := 0, exp := 10 },
          secret := defaultConfig.refreshSecret } = none) ∧
    ¬ (verifyAccessToken { jwtSecret := "shared", refreshSecret := "shared" } 0
        (generateRefreshToken { jwtSecret := "shared", refreshSecret := "shared" } 0
          (JsVal.str "u1")) = none) := by
  constructor <;> decide

/-- Claim C2 amended: cross-acceptance is prevented only by the secrets
being distinct — under `jwtSecret ≠ refreshSecret` a refresh token is never
accepted by `verifyAccessToken` and an access token is never accepted by
`verifyRefreshToken`; but `verifyRefreshToken` ignores the type
discriminator and accepts any unexpired token signed with the refresh
secret. -/
theorem token_cross_verification_amended (cfg : JWTConfig) (now now2 : Nat)
    (user : UserView) (uid : JsVal) (tok : SignedToken)
    (hsec : cfg.jwtSecret ≠ cfg.refreshSecret) :
    verifyAccessToken cfg now2 (generateRefreshToken cfg now uid) = none ∧
    verifyRefreshToken cfg now2 (generateAccessToken cfg now user) = none ∧
    (tok.secret = cfg.refreshSecret → now2 < tok.payload.exp →
      verifyRefreshToken cfg now2 tok =
        some { userId := tok.payload.userId, email := none }) := by
  refine ⟨?_, ?_, ?_⟩
  · simp only [verifyAccessToken, generateRefreshToken, jwtVerify]
    rw [if_neg]
    rintro ⟨h1, h2⟩
    exact hsec h1.symm
  · simp [verifyRefreshToken, generateAccessToken, jwtVerify, hsec]
  · intro h1 h2
    simp [verifyRefreshToken, jwtVerify, h1, h2]

/-- Concrete instance of the amended claim C2 at the default (distinct)
secrets. -/
theorem token_cross_verification_amended_witness :
    defaultConfig.jwtSecret ≠ defaultConfig.refreshSecret ∧
    verifyAccessToken defaultConfig 0
      (generateRefreshToken defaultConfig 0 (JsVal.str "u1")) = none ∧
    verifyRefreshToken defaultConfig 0
      (generateAccessToken defaultConfig 0
        { id := "u1", email := "a@x.com", role := UserRole.ADMIN, accessLevel := 4 }) = none :=
  ⟨by decide,
   (token_cross_verification_amended defaultConfig 0 0
      { id := "u1", email := "a@x.com", role := UserRole.ADMIN, accessLevel := 4 }
      (JsVal.str "u1")
      (generateRefreshToken defaultConfig 0 (JsVal.str "u1")) (by decide)).1,
   (token_cross_verification_amended defaultConfig 0 0
      { id := "u1", email := "a@x.com", role := UserRole.ADMIN, accessLevel := 4 }
      (JsVal.str "u1")
      (generateRefreshToken defaultConfig 0 (JsVal.str "u1")) (by decide)).2.1⟩

/-! ## Claim C3 -/

/-- Claim C3: tokens issued by `generateAccessToken` carry no `accessLevel`
claim, so the request context `authMiddleware` builds from a verified such
token has `accessLevel = undefined`, and for every required level the
access-level gate lets the request through (JS `undefined < L` is false, so
the 403 branch is never taken). -/
theorem accessLevel_gate_never_forbids (cfg : JWTConfig) (nowI nowV : Nat)
    (user : UserView) (L : AccessLevel) (u : RequestUser)
    (hmw : authMiddleware cfg nowV (some (generateAccessToken cfg nowI user)) =
      .next u) :
    (generateAccessToken cfg nowI user).payload.accessLevel = none ∧
    u.accessLevel = none ∧
    accessLevelMiddleware L (some u) = .next u := by
  refine ⟨rfl, ?_⟩
  cases hv : verifyAccessToken cfg nowV (generateAccessToken cfg nowI user) with
  | none => simp [authMiddleware, hv] at hmw
  | some p =>
    simp only [authMiddleware, hv, MwOutcome.next.injEq] at hmw
    have hp : p = (generateAccessToken cfg nowI user).payload := by
      unfold verifyAccessToken jwtVerify at hv
      split at hv
      · exact (Option.some.inj hv).symm
      · cases hv
    subst hmw
    subst hp
    exact ⟨rfl, by simp [accessLevelMiddleware, jsLtOptNat, generateAccessToken]⟩

/-- Concrete instance of claim C3: an OPERADOR token passes a
required-level-4 gate because the context accessLevel is undefined. -/
theorem accessLevel_gate_never_forbids_witness :
    authMiddleware defaultConfig 0 (some (generateAccessToken defaultConfig 0
      { id := "u1", email := "a@x.com", role := UserRole.OPERADOR, accessLevel := 4 })) =
      MwOutcome.next { id := none, email := some "a@x.com", role := some UserRole.OPERADOR, accessLevel := none } ∧
    accessLevelMiddleware 4
      (some { id := none, email := some "a@x.com", role := some UserRole.OPERADOR, accessLevel := none }) =
      MwOutcome.next { id := none, email := some "a@x.com", role := some UserRole.OPERADOR, accessLevel := none } :=
  ⟨by decide,
   (accessLevel_gate_never_forbids defaultConfig 0 0
      { id := "u1", email := "a@x.com", role := UserRole.OPERADOR, accessLevel := 4 }
      4 _ (by decide)).2.2⟩

/-! ## Claims C5 and C6 -/

theorem isLocked_true_state {now : Nat} {id : String} {s : RLState}
    (h : (isLocked now id s).fst = true) : (isLocked now id s).snd = s := by
  cases hr : s id with
  | none => simp [isLocked, hr]
  | some r =>
    by_cases hexp : now - r.timestamp > lockoutDuration
    · exfalso
      have hf : (isLocked now id s).fst = false := by simp [isLocked, hr, hexp]
      rw [h] at hf
      cases hf
    · simp [isLocked, hr, hexp]

/-- Claim C5: when the throttle state for the email is locked, `login`
fails with the lockout error and leaves the throttle state unchanged — the
result does not depend on the password oracle or the user store at all
(both are universally quantified and absent from the right-hand side), so
no password comparison and no user lookup can influence the outcome, and no
further failure is recorded. -/
theorem login_locked_fails_before_credentials (cfg : JWTConfig) (nowMs : Nat)
    (cmp : String → String → Bool) (store : UserStore) (rl : RLState)
    (req : LoginRequest) (he : req.email ≠ "") (hp : req.password ≠ "")
    (hl : (isLocked nowMs req.email rl).fst = true) :
    login cfg nowMs cmp store rl req = (.error lockedMsg, rl) := by
  unfold login
  rw [if_neg (by tauto)]
  simp only [hl, if_true]
  rw [isLocked_true_state hl]

/-- Concrete instance of claim C5: after five recorded failures, a sixth
attempt with the correct password (a comparison oracle that always
succeeds, user present in the store) still fails with the lockout error and
records nothing. -/
theorem login_locked_fails_before_credentials_witness :
    (isLocked 10 "a@x.com" (recordMany "a@x.com" [0, 1, 2, 3, 4] rlEmpty)).fst = true ∧
    login defaultConfig 10 (fun _ _ => true)
      [("a@x.com",
        { id := "u1", email := "a@x.com", name := "Ana", role := UserRole.Usuario,
          accessLevel := 1, createdAt := 0, password := "h" })]
      (recordMany "a@x.com" [0, 1, 2, 3, 4] rlEmpty)
      { email := "a@x.com", password := "Str0ng!Pass123" } =
      (.error lockedMsg, recordMany "a@x.com" [0, 1, 2, 3, 4] rlEmpty) :=
  ⟨by decide,
   login_locked_fails_before_credentials defaultConfig 10 (fun _ _ => true) _ _ _
     (by decide) (by decide) (by decide)⟩

/-- Claim C6: for an unlocked email, login on an unknown email and login on
a known email with a non-matching password both return the identical
generic invalid-credentials error and both record exactly one throttle
failure — the two outcomes are equal, so the caller cannot tell whether the
email exists. -/
theorem login_generic_invalid_credentials (cfg : JWTConfig) (nowMs : Nat)
    (cmp : String → String → Bool) (rl : RLState) (req : LoginRequest)
    (u : StoredUser) (store1 store2 : UserStore)
    (he : req.email ≠ "") (hp : req.password ≠ "")
    (hnl : (isLocked nowMs req.email rl).fst = false)
    (h1 : storeFind store1 req.email = none)
    (h2 : storeFind store2 req.email = some u)
    (hcmp : cmp req.password u.password = false) :
    login cfg nowMs cmp store1 rl req =
      (.error invalidCredsMsg,
       recordAttempt nowMs req.email (isLocked nowMs req.email rl).snd) ∧
    login cfg nowMs cmp store2 rl req =
      (.error invalidCredsMsg,
       recordAttempt nowMs req.email (isLocked nowMs req.email rl).snd) ∧
    login cfg nowMs cmp store1 rl req = login cfg nowMs cmp store2 rl req := by
  have e1 : login cfg nowMs cmp store1 rl req =
      (.error invalidCredsMsg,
       recordAttempt nowMs req.email (isLocked nowMs req.email rl).snd) := by
    unfold login
    rw [if_neg (by tauto)]
    simp only [hnl, Bool.false_eq_true, if_false, h1]
  have e2 : login cfg nowMs cmp store2 rl req =
      (.error invalidCredsMsg,
       recordAttempt nowMs req.email (isLocked nowMs req.email rl).snd) := by
    unfold login
    rw [if_neg (by tauto)]
    simp only [hnl, Bool.false_eq_true, if_false, h2, hcmp]
  exact ⟨e1, e2, e1.trans e2.symm⟩

/-- Concrete instance of claim C6: unknown email against an empty store and
wrong password against a store holding the user produce equal outcomes. -/
theorem login_generic_invalid_credentials_witness :
    storeFind ([] : UserStore) "b@x.com" = none ∧
    login defaultConfig 0 (fun _ _ => false) [] rlEmpty
      { email := "b@x.com", password := "pw" } =
    login defaultConfig 0 (fun _ _ => false)
      [("b@x.com",
        { id := "u2", email := "b@x.com", name := "Bo", role := UserRole.Usuario,
          accessLevel := 1, createdAt := 0, password := "h2" })]
      rlEmpty { email := "b@x.com", password := "pw" } :=
  ⟨rfl,
   (login_generic_invalid_credentials defaultConfig 0 (fun _ _ => false) rlEmpty
      { email := "b@x.com", password := "pw" }
      { id := "u2", email := "b@x.com", name := "Bo", role := UserRole.Usuario,
        accessLevel := 1, createdAt := 0, password := "h2" }
      [] _ (by decide) (by decide) (by decide) (by decide) (by decide) rfl).2.2⟩

/-! ## Claim C4 -/

theorem rlSet_self (id : String) (r : RLRecord) (s : RLState) :
    (rlSet id r s) id = some r := by simp [rlSet]

theorem recordMany_chain (id : String) :
    ∀ (ts : List Nat) (s : RLState) (c prev : Nat),
      s id = some { count := c, timestamp := prev } →
      chainedFromB prev ts = true →
      (recordMany id ts s) id =
        some { count := c + ts.length, timestamp := lastTime prev ts } := by
  intro ts
  induction ts with
  | nil => intro s c prev h0 hch; simpa [recordMany, lastTime] using h0
  | cons t rest ih =>
    intro s c prev h0 hch
    simp only [chainedFromB, Bool.and_eq_true, decide_eq_true_eq] at hch
    obtain ⟨hle, hch2⟩ := hch
    have hstep : recordMany id (t :: rest) s =
        recordMany id rest (rlSet id { count := c + 1, timestamp := t } s) := by
      simp [recordMany, List.foldl_cons, recordAttempt, h0, Nat.not_lt.mpr hle]
    rw [hstep]
    have := ih (rlSet id { count := c + 1, timestamp := t } s) (c + 1) t
      (rlSet_self id _ s) hch2
    rw [this]
    simp [lastTime]
    omega

theorem recordMany_fresh {id : String} {s : RLState} (h0 : s id = none)
    {t0 : Nat} {rest : List Nat} (hch : chainedFromB t0 rest = true) :
    (recordMany id (t0 :: rest) s) id =
      some { count := 1 + rest.length, timestamp := lastTime t0 rest } := by
  have h1 : recordMany id (t0 :: rest) s =
      recordMany id rest (rlSet id { count := 1, timestamp := t0 } s) := by
    simp [recordMany, List.foldl_cons, recordAttempt, h0]
  rw [h1]
  exact recordMany_chain id rest _ 1 t0 (rlSet_self id _ s) hch

/-- Claim C4: for every identity, exactly `maxAttempts` failures recorded
along a chain that stays within the sliding window lock the identity while
the window since the last failure has not elapsed; one further failure
after the window has elapsed restarts the record at count 1 (not
maxAttempts+1) and the identity is then unlocked at every clock; a present
record with count below `maxAttempts` is never locked; and `isLocked` on an
expired record answers false and deletes the record. -/
theorem rateLimiter_lockout_windows (id : String) :
    (∀ s t0 rest now, s id = none → chainedFromB t0 rest = true →
       (t0 :: rest).length = maxAttempts →
       now - lastTime t0 rest ≤ lockoutDuration →
       (isLocked now id (recordMany id (t0 :: rest) s)).fst = true) ∧
    (∀ s t0 rest t6, s id = none → chainedFromB t0 rest = true →
       (t0 :: rest).length = maxAttempts →
       lockoutDuration < t6 - lastTime t0 rest →
       (recordAttempt t6 id (recordMany id (t0 :: rest) s)) id =
         some { count := 1, timestamp := t6 } ∧
       ∀ now2, (isLocked now2 id (recordAttempt t6 id (recordMany id (t0 :: rest) s))).fst = false) ∧
    (∀ s now r, s id = some r → r.count < maxAttempts →
       (isLocked now id s).fst = false) ∧
    (∀ s now r, s id = some r → lockoutDuration < now - r.timestamp →
       isLocked now id s = (false, rlDelete id s)) := by
  refine ⟨?_, ?_, ?_, ?_⟩
  · intro s t0 rest now h0 hch hlen hnow
    have hfin := recordMany_fresh h0 hch
    have hcnt : 1 + rest.length = maxAttempts := by
      simp only [List.length_cons] at hlen
      omega
    rw [hcnt] at hfin
    simp [isLocked, hfin, Nat.not_lt.mpr hnow]
  · intro s t0 rest t6 h0 hch hlen hexp
    have hfin := recordMany_fresh h0 hch
    have hrec : (recordAttempt t6 id (recordMany id (t0 :: rest) s)) id =
        some { count := 1, timestamp := t6 } := by
      simp [recordAttempt, hfin, hexp, rlSet_self]
    refine ⟨hrec, ?_⟩
    intro now2
    by_cases h2 : now2 - t6 > lockoutDuration
    · simp [isLocked, hrec, h2]
    · simp [isLocked, hrec, h2, maxAttempts]
  · intro s now r hr hc
    by_cases hexp : now - r.timestamp > lockoutDuration
    · simp [isLocked, hr, hexp]
    · simp [isLocked, hr, hexp, Nat.not_le, hc]
  · intro s now r hr hexp
    simp [isLocked, hr, hexp]

/-- Concrete instance of claim C4: five failures at ms 0..4 lock the
account at ms 5; a sixth failure at ms 900010 (window elapsed) restarts the
count at 1 and the account is unlocked. -/
theorem rateLimiter_lockout_windows_witness :
    (isLocked 5 "a@x.com" (recordMany "a@x.com" [0, 1, 2, 3, 4] rlEmpty)).fst = true ∧
    (recordAttempt 900010 "a@x.com" (recordMany "a@x.com" [0, 1, 2, 3, 4] rlEmpty)) "a@x.com" =
      some { count := 1, timestamp := 900010 } ∧
    (isLocked 900010 "a@x.com" (recordAttempt 900010 "a@x.com"
        (recordMany "a@x.com" [0, 1, 2, 3, 4] rlEmpty))).fst = false :=
  ⟨(rateLimiter_lockout_windows "a@x.com").1 rlEmpty 0 [1, 2, 3, 4] 5 rfl (by decide) (by decide) (by decide),
   ((rateLimiter_lockout_windows "a@x.com").2.1 rlEmpty 0 [1, 2, 3, 4] 900010 rfl (by decide) (by decide) (by decide)).1,
   ((rateLimiter_lockout_windows "a@x.com").2.1 rlEmpty 0 [1, 2, 3, 4] 900010 rfl (by decide) (by decide) (by decide)).2 900010⟩


/-! ## Claim C7 -/

/-- Claim C7: verifying an access token returns claims whose subject id,
email and role equal those issued while the clock is before expiry, and
returns null once the clock reaches or passes expiry. -/
theorem accessToken_roundtrip (cfg : JWTConfig) (now now2 : Nat) (user : UserView) :
    (now2 < now + getExpirySeconds cfg.jwtExpire →
      ∃ p, verifyAccessToken cfg now2 (generateAccessToken cfg now user) = some p ∧
        p.userId = some (JsVal.str user.id) ∧ p.email = some user.email ∧
        p.role = some user.role) ∧
    (now + getExpirySeconds cfg.jwtExpire ≤ now2 →
      verifyAccessToken cfg now2 (generateAccessToken cfg now user) = none) := by
  constructor
  · intro h
    refine ⟨(generateAccessToken cfg now user).payload, ?_, rfl, rfl, rfl⟩
    simp [verifyAccessToken, generateAccessToken, jwtVerify, h]
  · intro h
    simp [verifyAccessToken, generateAccessToken, jwtVerify, Nat.not_lt.mpr h]

/-- Concrete instance of claim C7: verification right after issue succeeds
with matching claims; verification at the 24h expiry fails. -/
theorem accessToken_roundtrip_witness :
    (0 < 0 + getExpirySeconds defaultConfig.jwtExpire ∧
      ∃ p, verifyAccessToken defaultConfig 0
          (generateAccessToken defaultConfig 0
            { id := "u1", email := "a@x.com", role := UserRole.ADMIN, accessLevel := 4 }) = some p ∧
        p.userId = some (JsVal.str "u1") ∧ p.email = some "a@x.com" ∧
        p.role = some UserRole.ADMIN) ∧
    (0 + getExpirySeconds defaultConfig.jwtExpire ≤ 86400 ∧
      verifyAccessToken defaultConfig 86400
        (generateAccessToken defaultConfig 0
          { id := "u1", email := "a@x.com", role := UserRole.ADMIN, accessLevel := 4 }) = none) :=
  ⟨⟨by decide,
    (accessToken_roundtrip defaultConfig 0 0
      { id := "u1", email := "a@x.com", role := UserRole.ADMIN, accessLevel := 4 }).1 (by decide)⟩,
   ⟨by decide,
    (accessToken_roundtrip defaultConfig 0 86400
      { id := "u1", email := "a@x.com", role := UserRole.ADMIN, accessLevel := 4 }).2 (by decide)⟩⟩

/-! ## Claim C8 -/

/-- Claim C8: for every password shorter than 12 characters or missing a
required character class, `validatePassword` returns invalid together with
exactly the set of violated rules — each of the five rule messages is
reported iff its rule is violated, and nothing else is ever reported. -/
theorem validatePassword_reports_exact_violations (p : List Char)
    (h : p.length < minPasswordLength ∨ hasLower p = false ∨ hasUpper p = false ∨
         hasDigit p = false ∨ hasSpecial p = false) :
    (validatePassword p).valid = false ∧
    (errLen ∈ (validatePassword p).errors ↔ p.length < minPasswordLength) ∧
    (errLower ∈ (validatePassword p).errors ↔ hasLower p = false) ∧
    (errUpper ∈ (validatePassword p).errors ↔ hasUpper p = false) ∧
    (errDigit ∈ (validatePassword p).errors ↔ hasDigit p = false) ∧
    (errSpecial ∈ (validatePassword p).errors ↔ hasSpecial p = false) ∧
    ∀ e ∈ (validatePassword p).errors, e ∈ [errLen, errLower, errUpper, errDigit, errSpecial] := by
  by_cases hlen : p.length < minPasswordLength <;>
    cases hl : hasLower p <;> cases hu : hasUpper p <;>
    cases hd : hasDigit p <;> cases hs : hasSpecial p <;>
    simp_all [validatePassword_errors_eq, validatePassword_valid_eq, hlen,
      errLen, errLower, errUpper, errDigit, errSpecial] <;> tauto

/-- Concrete instance of claim C8 on the password "short". -/
theorem validatePassword_reports_exact_violations_witness :
    "short".toList.length < minPasswordLength ∧
    (validatePassword "short".toList).valid = false :=
  ⟨by decide,
   (validatePassword_reports_exact_violations "short".toList (Or.inl (by decide))).1⟩

/-! ## Claim C10 -/

/-- Claim C10: duration parsing maps "45s" to 45, "30m" to 1800, "24h" to
86400, and "7d" to 604800 seconds, and every string in which no digit is
immediately followed by a unit letter (so that no numeric magnitude with a
single unit letter can be extracted) falls back to the fixed default of
86400 seconds instead of failing. -/
theorem getExpirySeconds_policy :
    getExpirySeconds "45s" = 45 ∧ getExpirySeconds "30m" = 1800 ∧
    getExpirySeconds "24h" = 86400 ∧ getExpirySeconds "7d" = 604800 ∧
    ∀ s : String, hasDigitUnitPair s.toList = false → getExpirySeconds s = 86400 := by
  refine ⟨by decide, by decide, by decide, by decide, ?_⟩
  intro s h
  unfold getExpirySeconds
  rw [findDurMatch_eq_none h]

/-- Concrete instance of claim C10 on the malformed duration "soon". -/
theorem getExpirySeconds_policy_witness :
    hasDigitUnitPair "soon".toList = false ∧ getExpirySeconds "soon" = 86400 :=
  ⟨by decide, getExpirySeconds_policy.2.2.2.2 "soon" (by decide)⟩

/-! ## Claim C9 -/

theorem roleStr_mem_roleNames (r : UserRole) : r.str ∈ roleNames := by
  cases r <;> simp [UserRole.str, roleNames]

theorem storeFind_mem : ∀ {s : UserStore} {k : String} {u : StoredUser},
    storeFind s k = some u → (k, u) ∈ s := by
  intro s
  induction s with
  | nil => intro k u h; simp [storeFind] at h
  | cons e rest ih =>
    intro k u h
    obtain ⟨k0, u0⟩ := e
    by_cases hk : k0 = k
    · subst hk
      simp [storeFind] at h
      subst h
      exact List.mem_cons_self _ _
    · simp [storeFind, hk] at h
      exact List.mem_cons_of_mem _ (ih h)

theorem findById_mem : ∀ {s : UserStore} {uid : String} {u : StoredUser},
    findById s uid = some u → ∃ k, (k, u) ∈ s := by
  intro s
  induction s with
  | nil => intro uid u h; simp [findById] at h
  | cons e rest ih =>
    intro uid u h
    obtain ⟨k0, u0⟩ := e
    by_cases hid : u0.id = uid
    · simp [findById, hid] at h
      subst h
      exact ⟨k0, List.mem_cons_self _ _⟩
    · simp [findById, hid] at h
      obtain ⟨k, hk⟩ := ih h
      exact ⟨k, List.mem_cons_of_mem _ hk⟩

theorem updateUserAccessLevel_ok {uid : String} {lvl : AccessLevel} :
    ∀ {store : UserStore} {r : PublicUser},
      (updateUserAccessLevel uid lvl store).fst = .ok r →
      ∃ k u, (k, u) ∈ store ∧ r = stripPassword { u with accessLevel := lvl } := by
  intro store
  induction store with
  | nil => intro r h; simp [updateUserAccessLevel] at h
  | cons e rest ih =>
    intro r h
    obtain ⟨k0, u0⟩ := e
    simp only [updateUserAccessLevel] at h
    split at h
    · simp only [Except.ok.injEq] at h
      exact ⟨k0, u0, List.mem_cons_self _ _, h.symm⟩
    · obtain ⟨k, u, hmem, hr⟩ := ih h
      exact ⟨k, u, List.mem_cons_of_mem _ hmem, hr⟩

theorem updateUserRole_ok {uid : String} {role : UserRole} :
    ∀ {store : UserStore} {r : PublicUser},
      (updateUserRole uid role store).fst = .ok r →
      ∃ k u, (k, u) ∈ store ∧ r = stripPassword { u with role := role } := by
  intro store
  induction store with
  | nil => intro r h; simp [updateUserRole] at h
  | cons e rest ih =>
    intro r h
    obtain ⟨k0, u0⟩ := e
    simp only [updateUserRole] at h
    split at h
    · simp only [Except.ok.injEq] at h
      exact ⟨k0, u0, List.mem_cons_self _ _, h.symm⟩
    · obtain ⟨k, u, hmem, hr⟩ := ih h
      exact ⟨k, u, List.mem_cons_of_mem _ hmem, hr⟩

theorem login_ok_shape {cfg : JWTConfig} {nowMs : Nat}
    {cmp : String → String → Bool} {store : UserStore} {rl : RLState}
    {req : LoginRequest} {resp : LoginResponse} {rl2 : RLState}
    (h : login cfg nowMs cmp store rl req = (.ok resp, rl2)) :
    ∃ user, storeFind store req.email = some user ∧
      resp = { accessToken := generateAccessToken cfg (nowMs / 1000)
                 { id := user.id, email := user.email, role := user.role,
                   accessLevel := user.accessLevel },
               refreshToken := generateRefreshToken cfg (nowMs / 1000)
                 (JsVal.objIdEmail user.id user.email),
               user := { id := user.id, email := user.email, role := user.role,
                         accessLevel := user.accessLevel } } := by
  by_cases hc1 : req.email = "" ∨ req.password = ""
  · simp [login, hc1, Prod.ext_iff] at h
  · by_cases hc2 : (isLocked nowMs req.email rl).fst = true
    · simp [login, hc1, hc2, Prod.ext_iff] at h
    · cases hf : storeFind store req.email with
      | none => simp [login, hc1, hc2, hf, Prod.ext_iff] at h
      | some user =>
        by_cases hc3 : cmp req.password user.password = true
        · refine ⟨user, rfl, ?_⟩
          simp only [login, hc1, hc2, hf, hc3, if_false, if_true,
            Bool.false_eq_true, Prod.mk.injEq, Except.ok.injEq] at h
          exact h.1.symm
        · simp [login, hc1, hc2, hf, hc3, Prod.ext_iff] at h

theorem register_ok_shape {hashFn : String → String} {freshId : String}
    {now : Nat} {store : UserStore} {req : RegisterRequest} {r : PublicUser}
    {store2 : UserStore}
    (h : register hashFn freshId now store req = (.ok r, store2)) :
    r = { id := freshId, email := req.email, name := req.name,
          role := req.role.getD UserRole.Usuario,
          accessLevel := AccessLevel.READ, createdAt := now } := by
  have heq : register hashFn freshId now store req =
      if req.email = "" ∨ req.password = "" ∨ req.name = "" then
        (.error "Email, password, and name are required", store)
      else if (storeFind store req.email).isSome then
        (.error "User already exists", store)
      else if (validatePassword req.password.toList).valid then
        (.ok (stripPassword
            { id := freshId, email := req.email, name := req.name,
              role := req.role.getD UserRole.Usuario,
              accessLevel := AccessLevel.READ, createdAt := now,
              password := hashFn req.password }),
         storeSet store req.email
            { id := freshId, email := req.email, name := req.name,
              role := req.role.getD UserRole.Usuario,
              accessLevel := AccessLevel.READ, createdAt := now,
              password := hashFn req.password })
      else
        (.error ("Invalid password: " ++
          String.intercalate ", " (validatePassword req.password.toList).errors),
         store) := rfl
  rw [heq] at h
  by_cases hc1 : req.email = "" ∨ req.password = "" ∨ req.name = ""
  · rw [if_pos hc1, Prod.mk.injEq] at h
    exact absurd h.1 (by simp)
  · rw [if_neg hc1] at h
    by_cases hc2 : (storeFind store req.email).isSome = true
    · rw [if_pos hc2, Prod.mk.injEq] at h
      exact absurd h.1 (by simp)
    · rw [if_neg hc2] at h
      by_cases hc3 : (validatePassword req.password.toList).valid = true
      · rw [if_pos hc3, Prod.mk.injEq] at h
        have h2 := h.1
        rw [Except.ok.injEq] at h2
        rw [← h2]
        rfl
      · rw [if_neg hc3, Prod.mk.injEq] at h
        exact absurd h.1 (by simp)

/-- Claim C9: no value returned by register, login, refreshAccessToken,
getUserById, updateUserAccessLevel or updateUserRole contains the password
string anywhere in the returned structure: whenever the password (plaintext
or hash) differs from the genuinely public strings (ids, emails, names, the
five role names, the "refresh" type tag), it is absent from every string
slot of every successful result. -/
theorem outputs_password_free (pw : String) (store : UserStore)
    (hrole : pw ∉ roleNames) (href : pw ≠ "refresh")
    (hstore : ∀ e u, (e, u) ∈ store → pw ≠ u.id ∧ pw ≠ u.email ∧ pw ≠ u.name) :
    (∀ hashFn freshId now req r store2,
       pw ≠ freshId → pw ≠ req.email → pw ≠ req.name →
       register hashFn freshId now store req = (.ok r, store2) →
       pw ∉ publicUserStrings r) ∧
    (∀ cfg nowMs cmp rl req resp rl2,
       login cfg nowMs cmp store rl req = (.ok resp, rl2) →
       pw ∉ loginRespStrings resp) ∧
    (∀ cfg now tok t,
       refreshAccessToken cfg now store tok = .ok t → pw ∉ tokenStrings t) ∧
    (∀ uid r, getUserById store uid = some r → pw ∉ publicUserStrings r) ∧
    (∀ uid lvl r store2,
       updateUserAccessLevel uid lvl store = (.ok r, store2) →
       pw ∉ publicUserStrings r) ∧
    (∀ uid role r store2,
       updateUserRole uid role store = (.ok r, store2) →
       pw ∉ publicUserStrings r) := by
  refine ⟨?_, ?_, ?_, ?_, ?_, ?_⟩
  · intro hashFn freshId now req r store2 hfid hfe hfn hreg
    have hr := register_ok_shape hreg
    subst hr
    have hro : pw ≠ (req.role.getD UserRole.Usuario).str :=
      fun h => hrole (h ▸ roleStr_mem_roleNames _)
    simp [publicUserStrings, hfid, hfe, hfn, hro]
  · intro cfg nowMs cmp rl req resp rl2 hlog
    obtain ⟨user, hf, hresp⟩ := login_ok_shape hlog
    obtain ⟨hid, hemail, hname⟩ := hstore _ _ (storeFind_mem hf)
    subst hresp
    have hro : pw ≠ user.role.str :=
      fun h => hrole (h ▸ roleStr_mem_roleNames _)
    simp [loginRespStrings, tokenStrings, payloadStrings, generateAccessToken,
      generateRefreshToken, JsVal.strings, hid, hemail, href, hro]
  · intro cfg now tok t hok
    exact absurd hok (refreshAccessToken_never_ok cfg now store tok t)
  · intro uid r hget
    unfold getUserById at hget
    cases hfind : findById store uid with
    | none => rw [hfind] at hget; simp at hget
    | some u =>
      rw [hfind] at hget
      simp at hget
      obtain ⟨k, hmem⟩ := findById_mem hfind
      obtain ⟨hid, hemail, hname⟩ := hstore _ _ hmem
      subst hget
      have hro : pw ≠ u.role.str :=
        fun h => hrole (h ▸ roleStr_mem_roleNames _)
      simp [publicUserStrings, stripPassword, hid, hemail, hname, hro]
  · intro uid lvl r store2 hupd
    have hfst : (updateUserAccessLevel uid lvl store).fst = .ok r := by rw [hupd]
    obtain ⟨k, u, hmem, hr⟩ := updateUserAccessLevel_ok hfst
    obtain ⟨hid, hemail, hname⟩ := hstore _ _ hmem
    subst hr
    have hro : pw ≠ u.role.str :=
      fun h => hrole (h ▸ roleStr_mem_roleNames _)
    simp [publicUserStrings, stripPassword, hid, hemail, hname, hro]
  · intro uid role r store2 hupd
    have hfst : (updateUserRole uid role store).fst = .ok r := by rw [hupd]
    obtain ⟨k, u, hmem, hr⟩ := updateUserRole_ok hfst
    obtain ⟨hid, hemail, hname⟩ := hstore _ _ hmem
    subst hr
    have hro : pw ≠ role.str :=
      fun h => hrole (h ▸ roleStr_mem_roleNames _)
    simp [publicUserStrings, stripPassword, hid, hemail, hname, hro]


/-- Concrete instance of claim C9: the stored bcrypt hash "HASHED" does not
occur in the profile projection that getUserById returns. -/
theorem outputs_password_free_witness :
    "HASHED" ∉ publicUserStrings
      { id := "u1", email := "a@x.com", name := "Ana",
        role := UserRole.Usuario, accessLevel := 1, createdAt := 0 } :=
  (outputs_password_free "HASHED"
      [("a@x.com",
        { id := "u1", email := "a@x.com", name := "Ana", role := UserRole.Usuario,
          accessLevel := 1, createdAt := 0, password := "HASHED" })]
      (by decide) (by decide)
      (by
        intro e u hm
        simp at hm
        rw [hm.2]
        exact ⟨by decide, by decide, by decide⟩)).2.2.2.1 "u1"
    { id := "u1", email := "a@x.com", name := "Ana",
      role := UserRole.Usuario, accessLevel := 1, createdAt := 0 }
    (by decide)



end MedTracking
